import Mathlib

/-
Verification of the scheduling and broadcast-delivery core of the marathon
messaging bot (src/bot.py, src/scheduler.py, src/database.py).

The Python code is shallowly embedded: each coroutine becomes a pure Lean
function over explicit inputs (attempt outcomes, membership lookups, store
contents, randomness oracles), returning the observable effects (result
values, sleep durations, sent messages, store writes) as data.
-/

namespace Marafon

/-- Outcome of a single `bot.send_message` attempt, mirroring the exception
taxonomy caught in `safe_send_message` (src/scheduler.py lines 71-102):
success, `TelegramRetryAfter` with its `retry_after` seconds,
`TelegramNetworkError`, `TelegramAPIError`, or any other exception. -/
inductive SendOutcome
  | ok
  | retryAfter (wait : Nat)
  | networkError
  | apiError
  | otherError
deriving DecidableEq

/-- Observable behaviour of one `safe_send_message` call: the returned
boolean, the list of `asyncio.sleep` durations in order, and the number of
`bot.send_message` attempts actually made. -/
structure SendTrace where
  success : Bool
  sleeps : List Nat
  attempts : Nat
deriving DecidableEq

/-- The body of `for attempt in range(max_retries)` in `safe_send_message`
(src/scheduler.py lines 73-102).  `outcome i` is what the i-th
`bot.send_message` attempt does; `remaining` counts the loop iterations
still to run, so `attempt = maxRetries - remaining`.  Note that the
`continue` after `TelegramRetryAfter` still advances the loop variable
`attempt`. -/
def sendLoop (outcome : Nat → SendOutcome) (maxRetries : Nat) :
    Nat → Nat → List Nat → SendTrace
  | 0, attempt, sleeps => ⟨false, sleeps, attempt⟩
  | remaining + 1, attempt, sleeps =>
    match outcome attempt with
    | .ok => ⟨true, sleeps, attempt + 1⟩
    | .retryAfter w => sendLoop outcome maxRetries remaining (attempt + 1) (sleeps ++ [w])
    | .networkError =>
      if attempt < maxRetries - 1 then
        sendLoop outcome maxRetries remaining (attempt + 1) (sleeps ++ [(attempt + 1) * 2])
      else ⟨false, sleeps, attempt + 1⟩
    | .apiError => ⟨false, sleeps, attempt + 1⟩
    | .otherError => ⟨false, sleeps, attempt + 1⟩

/-- `safe_send_message(bot, chat_id, text, max_retries)` from
src/scheduler.py lines 71-102, abstracted over the per-attempt outcomes. -/
def safe_send_message (outcome : Nat → SendOutcome) (maxRetries : Nat) : SendTrace :=
  sendLoop outcome maxRetries maxRetries 0 []

lemma sendLoop_retryAfter (ws : Nat → Nat) (m : Nat) :
    ∀ (rem a : Nat) (s : List Nat),
      sendLoop (fun i => .retryAfter (ws i)) m rem a s
        = ⟨false, s ++ (List.range' a rem).map ws, a + rem⟩ := by
  intro rem
  induction rem with
  | zero => intro a s; simp [sendLoop]
  | succ rem ih =>
    intro a s
    simp only [sendLoop]
    rw [ih (a + 1) (s ++ [ws a]), List.range'_succ]
    simp
    omega

lemma sendLoop_networkError (m : Nat) :
    ∀ (rem a : Nat) (s : List Nat), a + rem = m →
      sendLoop (fun _ => .networkError) m rem a s
        = ⟨false, s ++ (List.range' (a + 1) (rem - 1)).map (fun i => i * 2), m⟩ := by
  intro rem
  induction rem with
  | zero => intro a s h; simp [sendLoop]; omega
  | succ rem ih =>
    intro a s h
    rw [sendLoop]
    cases rem with
    | zero =>
      have hge : ¬ a < m - 1 := by omega
      simp [hge]
      omega
    | succ rem2 =>
      have hlt : a < m - 1 := by omega
      simp only [hlt, if_true]
      rw [ih (a + 1) (s ++ [(a + 1) * 2]) (by omega)]
      simp only [Nat.add_sub_cancel]
      rw [List.range'_succ]
      simp

lemma sum_range'_double (n : Nat) :
    ((List.range' 1 n).map (fun i => i * 2)).sum = ∑ i in Finset.Icc 1 n, 2 * i := by
  induction n with
  | zero => simp
  | succ n ih =>
    rw [List.range'_concat, Finset.sum_Icc_succ_top (by omega)]
    simp only [List.map_append, List.sum_append, ih]
    simp
    ring

/-- C1 (amended): on a rate-limited signal carrying wait duration `ws i`,
`safe_send_message` sleeps exactly that duration and retries, but each such
retry consumes one attempt of the `max_retries` budget: after `m` consecutive
rate-limited responses the primitive has made exactly `m` attempts, slept
exactly the mandated durations in order, and returns failure. -/
theorem rate_limited_retries_consume_budget (ws : Nat → Nat) (m : Nat) :
    safe_send_message (fun i => .retryAfter (ws i)) m
      = ⟨false, (List.range m).map ws, m⟩ := by
  rw [safe_send_message, sendLoop_retryAfter, List.range_eq_range']
  simp

/-- C1 counterexample: with `max_retries = 3` and every attempt answered by a
rate-limited signal with wait 5, `safe_send_message` returns failure after
exactly 3 attempts — rate-limited retries are counted against the attempt
budget and the call fails due to rate limiting alone, contradicting the
claim that such retries are uncounted and unbounded. -/
theorem rate_limited_budget_counterexample :
    safe_send_message (fun _ => SendOutcome.retryAfter 5) 3
      = ⟨false, [5, 5, 5], 3⟩ := by decide

/-- C5: when every attempt fails with a transient network error and no
rate-limited signal occurs, `safe_send_message` makes exactly `max_retries`
attempts, sleeping `attempt_index * 2` time units between consecutive
attempts (2, 4, ...), the total inter-attempt delay is the sum of `2*i` for
`i` in `1..max_retries-1`, and the call returns failure. -/
theorem network_failure_exhausts_budget (m : Nat) :
    safe_send_message (fun _ => SendOutcome.networkError) m
      = ⟨false, (List.range' 1 (m - 1)).map (fun i => i * 2), m⟩
    ∧ ((List.range' 1 (m - 1)).map (fun i => i * 2)).sum
      = ∑ i in Finset.Icc 1 (m - 1), 2 * i := by
  constructor
  · rw [safe_send_message, sendLoop_networkError m m 0 [] (by omega)]
    simp
  · exact sum_range'_double (m - 1)

/-- Telegram chat-member status, as compared against in `check_subscription`
(src/scheduler.py lines 56-60). -/
inductive MemberStatus
  | member
  | administrator
  | creator
  | leftChat
  | kicked
  | restricted
deriving DecidableEq

/-- The membership test `member.status in [MEMBER, ADMINISTRATOR, CREATOR]`
from src/scheduler.py lines 56-60. -/
def statusOk : MemberStatus → Bool
  | .member => true
  | .administrator => true
  | .creator => true
  | _ => false

/-- The four configured channel ids (`CHANNEL_MAIN_ID` etc.); `none` models
an unset/empty value, which is falsy for the `all(channel_ids.values())`
test at src/scheduler.py line 47. -/
structure ChannelConfig where
  main : Option Int
  oksana : Option Int
  natalia : Option Int
  maria : Option Int
deriving DecidableEq

/-- `channel_ids.values()` in iteration order of the dict literal at
src/scheduler.py lines 40-45. -/
def channelIdList (cfg : ChannelConfig) : List (Option Int) :=
  [cfg.main, cfg.oksana, cfg.natalia, cfg.maria]

/-- Observable behaviour of one `check_subscription` call: the returned
boolean, whether the warning for unconfigured channel ids was logged, and
the channel ids whose membership was actually queried, in order. -/
structure SubCheckTrace where
  result : Bool
  warned : Bool
  queried : List Int
deriving DecidableEq

/-- `check_subscription(bot, user_id)` from src/scheduler.py lines 37-68,
abstracted over the membership lookup: `getMember cid = none` models
`bot.get_chat_member` raising an exception for channel `cid` (caught at
line 62, appending `False`), `some st` a successful lookup returning `st`. -/
def check_subscription (cfg : ChannelConfig)
    (getMember : Int → Option MemberStatus) : SubCheckTrace :=
  if (channelIdList cfg).all Option.isSome then
    let cids := (channelIdList cfg).filterMap id
    let statuses := cids.map (fun cid =>
      match getMember cid with
      | some st => statusOk st
      | none => false)
    ⟨statuses.all id, false, cids⟩
  else
    ⟨true, true, []⟩

/-- C7: when at least one required channel id is unset, `check_subscription`
returns `true` unconditionally, performs no membership lookup at all, and
logs a warning. -/
theorem unset_channel_id_bypasses_check (cfg : ChannelConfig)
    (getMember : Int → Option MemberStatus)
    (h : ¬ ((channelIdList cfg).all Option.isSome = true)) :
    check_subscription cfg getMember = ⟨true, true, []⟩ := by
  rw [check_subscription, if_neg h]

/-- C7 witness: with the MAIN channel id unset and the others set, the check
returns `true`, warns, and queries no channel. -/
theorem unset_channel_id_bypasses_check_witness :
    check_subscription ⟨none, some 2, some 3, some 4⟩
      (fun _ => some MemberStatus.member) = ⟨true, true, []⟩ :=
  unset_channel_id_bypasses_check ⟨none, some 2, some 3, some 4⟩
    (fun _ => some MemberStatus.member) (by decide)

/-- C6: when all channel ids are configured, the result is the conjunction
over all four channels of "the lookup succeeded and the status is member,
administrator or creator"; every channel is queried (an erroring channel
does not abort the remaining checks), an erroring channel forces a `false`
result (fail-closed), and no warning is logged. -/
theorem subscription_check_fail_closed (cfg : ChannelConfig)
    (getMember : Int → Option MemberStatus)
    (h : (channelIdList cfg).all Option.isSome = true) :
    ((check_subscription cfg getMember).result = true ↔
      ∀ cid ∈ (channelIdList cfg).filterMap id,
        ∃ st, getMember cid = some st ∧ statusOk st = true)
    ∧ (check_subscription cfg getMember).queried = (channelIdList cfg).filterMap id
    ∧ (check_subscription cfg getMember).warned = false
    ∧ ((∃ cid ∈ (channelIdList cfg).filterMap id, getMember cid = none) →
        (check_subscription cfg getMember).result = false) := by
  rw [check_subscription, if_pos h]
  refine ⟨?_, rfl, rfl, ?_⟩
  · simp only [List.all_eq_true, List.mem_map, id]
    constructor
    · rintro hall cid hcid
      have := hall _ ⟨cid, hcid, rfl⟩
      cases hg : getMember cid with
      | none => rw [hg] at this; exact absurd this (by simp)
      | some st => rw [hg] at this; exact ⟨st, rfl, this⟩
    · rintro hok b ⟨cid, hcid, rfl⟩
      obtain ⟨st, hst, hsok⟩ := hok cid hcid
      rw [hst]
      exact hsok
  · rintro ⟨cid, hcid, hnone⟩
    have hmem : false ∈ (((channelIdList cfg).filterMap id).map (fun cid2 =>
        match getMember cid2 with
        | some st => statusOk st
        | none => false)) := by
      refine List.mem_map.mpr ⟨cid, hcid, ?_⟩
      rw [hnone]
    rw [List.all_eq_false]
    exact ⟨false, hmem, by simp⟩

/-- C6 witness: with all four channel ids set, the MAIN lookup erroring and
the three others reporting member, the check queries all four channels and
returns `false` (fail-closed). -/
theorem subscription_check_fail_closed_witness :
    (check_subscription ⟨some 1, some 2, some 3, some 4⟩
        (fun cid => if cid = 1 then none else some MemberStatus.member)).result = false
    ∧ (check_subscription ⟨some 1, some 2, some 3, some 4⟩
        (fun cid => if cid = 1 then none else some MemberStatus.member)).queried
      = [1, 2, 3, 4] := by
  have h := subscription_check_fail_closed ⟨some 1, some 2, some 3, some 4⟩
    (fun cid => if cid = 1 then none else some MemberStatus.member) (by decide)
  refine ⟨h.2.2.2 ⟨1, by decide, by decide⟩, ?_⟩
  rw [h.2.1]
  decide

/-- A wall-clock minute key `(year, month, day, hour, minute)` as built at
src/scheduler.py line 108 and stored in the configured reminder dates. -/
abbrev TimeKey := Nat × Nat × Nat × Nat × Nat

/-- One entry of the `BROADCASTS` calendar as consumed by
`check_and_send_reminders`: its day label and the three reminder
timestamps `reminders["day_before"]["date"]`, `reminders["hour_before"]["date"]`
and `reminders["after"]["date"]` (the 5-minutes-before branch is commented
out in the source, src/scheduler.py lines 139-144). -/
structure Broadcast where
  day : String
  day_before : TimeKey
  hour_before : TimeKey
  after : TimeKey
deriving DecidableEq

/-- The message rendered for a matched reminder: which template was used on
which broadcast (`get_day_before_message` etc.), or the marathon-end text. -/
inductive RenderedMsg
  | dayBefore (b : Broadcast)
  | hourBefore (b : Broadcast)
  | afterBroadcast (b : Broadcast)
  | marathonEnd
deriving DecidableEq

/-- `check_and_send_reminders(bot)` from src/scheduler.py lines 105-164,
abstracted over the clock and the user store: returns the fan-outs
performed, in order, each as the rendered message paired with the list of
recipients (one `safe_send_message` per listed user).  An empty user list
returns early (line 112) with no fan-out. -/
def check_and_send_reminders (broadcasts : List Broadcast)
    (marathonEndDate : TimeKey) (now : TimeKey) (users : List Int) :
    List (RenderedMsg × List Int) :=
  if users = [] then []
  else
    broadcasts.flatMap (fun b =>
      (if now = b.day_before then [(RenderedMsg.dayBefore b, users)] else []) ++
      (if now = b.hour_before then [(RenderedMsg.hourBefore b, users)] else []) ++
      (if now = b.after then [(RenderedMsg.afterBroadcast b, users)] else [])) ++
    (if now = marathonEndDate then [(RenderedMsg.marathonEnd, users)] else [])

/-- C2: on a tick whose `current_time` equals the `hour_before` timestamp of
exactly one broadcast and matches no other reminder of any broadcast nor the
marathon-end date, the tick performs exactly one fan-out — that broadcast's
hour-before message to every currently-registered user — and no other. -/
theorem hour_before_match_single_fanout (broadcasts : List Broadcast)
    (marathonEndDate : TimeKey) (now : TimeKey) (users : List Int)
    (b : Broadcast)
    (husers : users ≠ [])
    (hmatch : broadcasts.filter (fun b2 => now = b2.hour_before) = [b])
    (hday : ∀ b2 ∈ broadcasts, now ≠ b2.day_before)
    (hafter : ∀ b2 ∈ broadcasts, now ≠ b2.after)
    (hend : now ≠ marathonEndDate) :
    check_and_send_reminders broadcasts marathonEndDate now users
      = [(RenderedMsg.hourBefore b, users)] := by
  rw [check_and_send_reminders, if_neg husers, if_neg hend, List.append_nil]
  have key : ∀ bs : List Broadcast, (∀ b2 ∈ bs, now ≠ b2.day_before) →
      (∀ b2 ∈ bs, now ≠ b2.after) →
      bs.flatMap (fun b2 =>
        (if now = b2.day_before then [(RenderedMsg.dayBefore b2, users)] else []) ++
        (if now = b2.hour_before then [(RenderedMsg.hourBefore b2, users)] else []) ++
        (if now = b2.after then [(RenderedMsg.afterBroadcast b2, users)] else []))
      = (bs.filter (fun b2 => now = b2.hour_before)).map
          (fun b2 => (RenderedMsg.hourBefore b2, users)) := by
    intro bs
    induction bs with
    | nil => intro _ _; rfl
    | cons hd tl ih =>
      intro h1 h2
      rw [List.flatMap_cons, List.filter_cons]
      rw [if_neg (h1 hd (by simp)), if_neg (h2 hd (by simp))]
      rw [ih (fun b2 hb2 => h1 b2 (by simp [hb2])) (fun b2 hb2 => h2 b2 (by simp [hb2]))]
      by_cases hh : now = hd.hour_before
      · rw [if_pos hh]
        simp [hh]
      · rw [if_neg hh]
        simp [hh]
  rw [key broadcasts hday hafter, hmatch]
  rfl

/-- C2 witness: a two-broadcast calendar where the tick time equals the first
broadcast's hour-before timestamp and nothing else, with two registered
users, yields exactly one fan-out of that hour-before message to both. -/
theorem hour_before_match_single_fanout_witness :
    check_and_send_reminders
      [⟨"day1", (2025, 1, 1, 10, 0), (2025, 1, 2, 9, 0), (2025, 1, 2, 11, 0)⟩,
       ⟨"day2", (2025, 1, 2, 10, 0), (2025, 1, 3, 9, 0), (2025, 1, 3, 11, 0)⟩]
      (2025, 1, 9, 12, 0) (2025, 1, 2, 9, 0) [11, 22]
      = [(RenderedMsg.hourBefore
            ⟨"day1", (2025, 1, 1, 10, 0), (2025, 1, 2, 9, 0), (2025, 1, 2, 11, 0)⟩,
          [11, 22])] :=
  hour_before_match_single_fanout _ _ _ _
    ⟨"day1", (2025, 1, 1, 10, 0), (2025, 1, 2, 9, 0), (2025, 1, 2, 11, 0)⟩
    (by decide) (by decide) (by decide) (by decide) (by decide)

/-- One observable event of a fan-out loop: a send attempt to a user, or the
`asyncio.sleep(0.05)` pacing pause. -/
inductive FanEvent
  | send (uid : Int)
  | pause
deriving DecidableEq

/-- The user ids sent to, in order, of a fan-out event trace. -/
def sendsOf : List FanEvent → List Int
  | [] => []
  | FanEvent.send u :: rest => u :: sendsOf rest
  | FanEvent.pause :: rest => sendsOf rest

/-- Whether a pause occurs between every two consecutive sends of a trace
(no send is immediately followed by another send). -/
def pacedBetweenSends : List FanEvent → Bool
  | FanEvent.send _ :: FanEvent.send _ :: _ => false
  | _ :: rest => pacedBetweenSends rest
  | [] => true

/-- The per-reminder fan-out loop of `check_and_send_reminders`
(e.g. src/scheduler.py lines 126-128): `safe_send_message` swallows every
failure into a boolean, and `asyncio.sleep(0.05)` runs unconditionally
after each send, whatever the outcome. -/
def reminder_fanout (users : List Int) : List FanEvent :=
  users.flatMap (fun u => [FanEvent.send u, FanEvent.pause])

/-- The admin-broadcast loop of `confirm_send_callback` (src/bot.py lines
412-429), abstracted over per-recipient success: the `asyncio.sleep(0.05)`
sits inside the `try` after the send, so a recipient whose send raises skips
the pause; the exception is caught and the loop continues.  Returns the
event trace with the success and error counts. -/
def confirm_send_fanout (ok : Int → Bool) : List Int → List FanEvent × Nat × Nat
  | [] => ([], 0, 0)
  | u :: rest =>
    let r := confirm_send_fanout ok rest
    if ok u then (FanEvent.send u :: FanEvent.pause :: r.1, r.2.1 + 1, r.2.2)
    else (FanEvent.send u :: r.1, r.2.1, r.2.2 + 1)

/-- C8 counterexample: in the admin broadcast over users `[1, 2]` where the
send to user 1 fails, the trace is send 1, send 2, pause — no pacing pause
is inserted between the two consecutive sends, refuting "a fixed 50ms
pacing delay is inserted between consecutive sends regardless of each
send's outcome" for this fan-out (the counts still record the failure and
the fan-out still reaches user 2). -/
theorem admin_fanout_skips_pause_on_failure :
    (confirm_send_fanout (fun u => decide (u ≠ 1)) [1, 2]).1
      = [FanEvent.send 1, FanEvent.send 2, FanEvent.pause]
    ∧ pacedBetweenSends (confirm_send_fanout (fun u => decide (u ≠ 1)) [1, 2]).1
      = false
    ∧ (confirm_send_fanout (fun u => decide (u ≠ 1)) [1, 2]).2 = (1, 1) := by
  decide

lemma fanout_props (users : List Int) (ok : Int → Bool) :
    sendsOf (reminder_fanout users) = users
    ∧ pacedBetweenSends (reminder_fanout users) = true
    ∧ (confirm_send_fanout ok users).1
      = users.flatMap (fun u => if ok u then [FanEvent.send u, FanEvent.pause]
          else [FanEvent.send u])
    ∧ sendsOf (confirm_send_fanout ok users).1 = users
    ∧ (confirm_send_fanout ok users).2.1 = (users.filter ok).length
    ∧ (confirm_send_fanout ok users).2.2 = (users.filter (fun u => ! ok u)).length := by
  induction users with
  | nil => exact ⟨rfl, rfl, rfl, rfl, rfl, rfl⟩
  | cons u rest ih =>
    obtain ⟨ih1, ih2, ih3, ih4, ih5, ih6⟩ := ih
    refine ⟨?_, ?_, ?_, ?_, ?_, ?_⟩
    · simp only [reminder_fanout, List.flatMap_cons] at *
      simpa [sendsOf] using ih1
    · simp only [reminder_fanout, List.flatMap_cons] at *
      cases hrest : rest with
      | nil => rfl
      | cons v tl =>
        subst hrest
        simpa [pacedBetweenSends] using ih2
    · simp only [confirm_send_fanout, List.flatMap_cons]
      by_cases hu : ok u
      · simp [hu, ih3]
      · simp [hu, ih3]
    · simp only [confirm_send_fanout]
      by_cases hu : ok u
      · simp only [hu, if_true]
        simpa [sendsOf] using ih4
      · simp only [hu, if_false]
        simpa [sendsOf] using ih4
    · simp only [confirm_send_fanout, List.filter_cons]
      by_cases hu : ok u
      · simp [hu, ih5]
      · simp [hu, ih5]
    · simp only [confirm_send_fanout, List.filter_cons]
      by_cases hu : ok u
      · simp [hu, ih6]
      · simp [hu, ih6]

/-- C8 (amended): every fan-out sends sequentially in input order and a
per-recipient failure never aborts the remaining recipients; in the
scheduler fan-outs the 50ms pacing pause follows every send regardless of
outcome (so a pause separates all consecutive sends), while in the admin
broadcast the pause follows only successful sends — a failed send proceeds
to the next recipient without the pause — and the success/error counts
partition the recipients. -/
theorem fanout_pacing_and_isolation (users : List Int) (ok : Int → Bool) :
    sendsOf (reminder_fanout users) = users
    ∧ pacedBetweenSends (reminder_fanout users) = true
    ∧ (confirm_send_fanout ok users).1
      = users.flatMap (fun u => if ok u then [FanEvent.send u, FanEvent.pause]
          else [FanEvent.send u])
    ∧ sendsOf (confirm_send_fanout ok users).1 = users
    ∧ (confirm_send_fanout ok users).2.1 = (users.filter ok).length
    ∧ (confirm_send_fanout ok users).2.2
      = (users.filter (fun u => ! ok u)).length :=
  fanout_props users ok

/-- A row of `get_eligible_raffle_participants()` (src/database.py lines
118-145): user id, optional username, optional first name. -/
structure Participant where
  user_id : Int
  username : Option String
  first_name : Option String
deriving DecidableEq

/-- Python truthiness of an optional string, as used by
`if not username: continue` at src/scheduler.py line 188: `None` and the
empty string are falsy. -/
def truthyStr : Option String → Bool
  | none => false
  | some s => ! (s == "")

/-- One record of `winners_data` as built at src/scheduler.py lines 238-244
and persisted by `save_raffle_winners`. -/
structure WinnerData where
  prize_place : Nat
  prize_amount : String
  user_id : Int
  username : Option String
  first_name : Option String
deriving DecidableEq

/-- The fixed `prizes` list of src/scheduler.py lines 228-232. -/
def prizes : List (Nat × String) :=
  [(1, "10 000 ₽"), (2, "5 000 ₽"), (3, "3 000 ₽")]

/-- The eligible set built by the participant loop at src/scheduler.py lines
182-201: participants with a truthy username whose live subscription
re-check passes, in input order. -/
def eligibleFilter (participants : List Participant) (subCheck : Int → Bool) :
    List Participant :=
  (participants.filter (fun p => truthyStr p.username)).filter
    (fun p => subCheck p.user_id)

/-- The `update_user_subscription_status` writes issued by the same loop:
one per participant with a truthy username, carrying the refreshed flag
(src/scheduler.py lines 193-196). -/
def raffleStatusUpdates (participants : List Participant) (subCheck : Int → Bool) :
    List (Int × Bool) :=
  (participants.filter (fun p => truthyStr p.username)).map
    (fun p => (p.user_id, subCheck p.user_id))

/-- The `winner_data` record built from one `(prize, winner)` pair at
src/scheduler.py lines 238-244. -/
def winnerOfPair (pw : (Nat × String) × Participant) : WinnerData :=
  ⟨pw.1.1, pw.1.2, pw.2.user_id, pw.2.username, pw.2.first_name⟩

/-- The `winners_data` loop of src/scheduler.py lines 234-245: pairs
`winners[i]` with `prizes[i]` for `i < num_winners`.  `none` models the
`IndexError` that would escape to the outer `except` when either list is
shorter than `num_winners` (no save, no announcement). -/
def mkWinnersData (winners : List Participant) (n : Nat) : Option (List WinnerData) :=
  if n ≤ winners.length ∧ n ≤ prizes.length then
    some (((prizes.zip winners).take n).map winnerOfPair)
  else none

/-- Observable behaviour of one `conduct_raffle` call: the subscription
status writes, the winner rows persisted via `save_raffle_winners`, and the
recipients of the announcement fan-out. -/
structure RaffleOutcome where
  statusUpdates : List (Int × Bool)
  savedWinners : List WinnerData
  announceRecipients : List Int
deriving DecidableEq

/-- `conduct_raffle(bot)` from src/scheduler.py lines 167-270, abstracted
over the store and the randomness: `subCheck` is the live
`check_subscription` verdict per user, `sample3` models
`random.sample(·, 3)` (the `len > 3` branch), `shuffle` models the
copy-and-`random.shuffle` of the `len ≤ 3` branch, and `registered` is
what `get_all_registered_users()` returns for the announcement. -/
def conduct_raffle (participants : List Participant) (subCheck : Int → Bool)
    (sample3 : List Participant → List Participant)
    (shuffle : List Participant → List Participant)
    (registered : List Int) : RaffleOutcome :=
  if participants = [] then ⟨[], [], []⟩
  else if (eligibleFilter participants subCheck).length = 0 then
    ⟨raffleStatusUpdates participants subCheck, [], []⟩
  else
    match mkWinnersData
        (if 3 < (eligibleFilter participants subCheck).length
          then sample3 (eligibleFilter participants subCheck)
          else shuffle (eligibleFilter participants subCheck))
        (min (eligibleFilter participants subCheck).length 3) with
    | none => ⟨raffleStatusUpdates participants subCheck, [], []⟩
    | some wd => ⟨raffleStatusUpdates participants subCheck, wd, registered⟩

lemma take_zip_map_fst {α β : Type} (n : Nat) :
    ∀ (ps : List α) (ws : List β), n ≤ ps.length → n ≤ ws.length →
      ((ps.zip ws).take n).map Prod.fst = ps.take n := by
  induction n with
  | zero => intro ps ws _ _; simp
  | succ n ih =>
    intro ps ws h1 h2
    match ps, ws with
    | [], _ => simp at h1
    | _ :: _, [] => simp at h2
    | p :: ps2, w :: ws2 =>
      simp only [List.zip_cons_cons, List.take_succ_cons, List.map_cons]
      rw [ih ps2 ws2 (by simpa using h1) (by simpa using h2)]

lemma take_zip_map_snd {α β : Type} (n : Nat) :
    ∀ (ps : List α) (ws : List β), n ≤ ps.length → n ≤ ws.length →
      ((ps.zip ws).take n).map Prod.snd = ws.take n := by
  induction n with
  | zero => intro ps ws _ _; simp
  | succ n ih =>
    intro ps ws h1 h2
    match ps, ws with
    | [], _ => simp at h1
    | _ :: _, [] => simp at h2
    | p :: ps2, w :: ws2 =>
      simp only [List.zip_cons_cons, List.take_succ_cons, List.map_cons]
      rw [ih ps2 ws2 (by simpa using h1) (by simpa using h2)]

lemma prizes_places_take (n : Nat) (h : n ≤ 3) :
    (prizes.take n).map Prod.fst = (List.range n).map (· + 1) := by
  interval_cases n <;> decide

lemma subperm_nodup {α : Type} {l₁ l₂ : List α} (h : List.Subperm l₁ l₂)
    (hn : l₂.Nodup) : l₁.Nodup := by
  obtain ⟨l, hp, hs⟩ := h
  exact hp.nodup_iff.mp (hn.sublist hs)

lemma subperm_map {α β : Type} (f : α → β) {l₁ l₂ : List α}
    (h : List.Subperm l₁ l₂) : List.Subperm (l₁.map f) (l₂.map f) := by
  obtain ⟨l, hp, hs⟩ := h
  exact ⟨l.map f, hp.map f, hs.map f⟩

lemma eligibleFilter_sublist (participants : List Participant) (subCheck : Int → Bool) :
    List.Sublist (eligibleFilter participants subCheck) participants :=
  (List.filter_sublist _).trans (List.filter_sublist _)

lemma mkWinnersData_props (w : List Participant) (n : Nat)
    (hn3 : n ≤ 3) (hnw : n ≤ w.length) :
    mkWinnersData w n = some (((prizes.zip w).take n).map winnerOfPair)
    ∧ (((prizes.zip w).take n).map winnerOfPair).length = n
    ∧ (((prizes.zip w).take n).map winnerOfPair).map WinnerData.prize_place
      = (List.range n).map (· + 1)
    ∧ (((prizes.zip w).take n).map winnerOfPair).map WinnerData.prize_amount
      = (prizes.map Prod.snd).take n
    ∧ (((prizes.zip w).take n).map winnerOfPair).map WinnerData.user_id
      = (w.take n).map Participant.user_id := by
  have hp3 : n ≤ prizes.length := by simpa [prizes] using hn3
  refine ⟨?_, ?_, ?_, ?_, ?_⟩
  · rw [mkWinnersData, if_pos ⟨hnw, hp3⟩]
  · simp only [List.length_map, List.length_take, List.length_zip]
    simp [prizes]
    omega
  · have h1 : (((prizes.zip w).take n).map winnerOfPair).map WinnerData.prize_place
        = (((prizes.zip w).take n).map Prod.fst).map Prod.fst := by
      simp only [List.map_map]
      rfl
    rw [h1, take_zip_map_fst n prizes w hp3 hnw, prizes_places_take n hn3]
  · have h2 : (((prizes.zip w).take n).map winnerOfPair).map WinnerData.prize_amount
        = (((prizes.zip w).take n).map Prod.fst).map Prod.snd := by
      simp only [List.map_map]
      rfl
    rw [h2, take_zip_map_fst n prizes w hp3 hnw, List.map_take]
  · have h3 : (((prizes.zip w).take n).map winnerOfPair).map WinnerData.user_id
        = (((prizes.zip w).take n).map Prod.snd).map Participant.user_id := by
      simp only [List.map_map]
      rfl
    rw [h3, take_zip_map_snd n prizes w hp3 hnw]

lemma conduct_raffle_run (participants : List Participant) (subCheck : Int → Bool)
    (sample3 shuffle : List Participant → List Participant) (registered : List Int)
    (hp : participants ≠ [])
    (hne : eligibleFilter participants subCheck ≠ [])
    (wd : List WinnerData)
    (hmk : mkWinnersData
        (if 3 < (eligibleFilter participants subCheck).length
          then sample3 (eligibleFilter participants subCheck)
          else shuffle (eligibleFilter participants subCheck))
        (min (eligibleFilter participants subCheck).length 3) = some wd) :
    conduct_raffle participants subCheck sample3 shuffle registered
      = ⟨raffleStatusUpdates participants subCheck, wd, registered⟩ := by
  rw [conduct_raffle, if_neg hp,
    if_neg (fun h0 => hne (List.length_eq_zero.mp h0)), hmk]

/-- C4: a raffle whose eligible set after the live subscription re-check is
empty aborts: no winner rows are persisted and no announcement is sent to
any user. -/
theorem raffle_empty_eligible_aborts (participants : List Participant)
    (subCheck : Int → Bool) (sample3 shuffle : List Participant → List Participant)
    (registered : List Int)
    (h : eligibleFilter participants subCheck = []) :
    (conduct_raffle participants subCheck sample3 shuffle registered).savedWinners = []
    ∧ (conduct_raffle participants subCheck sample3 shuffle
        registered).announceRecipients = [] := by
  by_cases hp : participants = []
  · rw [conduct_raffle, if_pos hp]
    exact ⟨rfl, rfl⟩
  · rw [conduct_raffle, if_neg hp, if_pos (by rw [h]; rfl)]
    exact ⟨rfl, rfl⟩

/-- C4 witness: one candidate whose live re-check fails leaves the eligible
set empty; nothing is saved and nobody receives an announcement. -/
theorem raffle_empty_eligible_aborts_witness :
    (conduct_raffle [⟨1, some "a", none⟩] (fun _ => false)
        (fun l => l.take 3) (fun l => l.reverse) [1, 2]).savedWinners = []
    ∧ (conduct_raffle [⟨1, some "a", none⟩] (fun _ => false)
        (fun l => l.take 3) (fun l => l.reverse) [1, 2]).announceRecipients = [] :=
  raffle_empty_eligible_aborts [⟨1, some "a", none⟩] (fun _ => false)
    (fun l => l.take 3) (fun l => l.reverse) [1, 2] (by decide)

/-- C3: for a raffle whose eligible set `e` (of size `n`) is non-empty,
provided `random.sample` returns 3 distinct elements of its population and
`random.shuffle` permutes its argument, the persisted winner list has
exactly `min n 3` entries with prize ranks `1..min n 3` in position order
and the fixed amounts "10 000 ₽", "5 000 ₽", "3 000 ₽"; every winner comes
from the eligible set, no user id repeats across ranks, and when `n ≤ 3`
the winners are exactly all `n` eligible participants in shuffled order. -/
theorem raffle_winner_selection
    (participants : List Participant) (subCheck : Int → Bool)
    (sample3 shuffle : List Participant → List Participant) (registered : List Int)
    (e : List Participant) (out : RaffleOutcome)
    (he : e = eligibleFilter participants subCheck)
    (hout : out = conduct_raffle participants subCheck sample3 shuffle registered)
    (hnodup : (participants.map Participant.user_id).Nodup)
    (hne : e ≠ [])
    (hsample : 3 < e.length → List.Subperm (sample3 e) e ∧ (sample3 e).length = 3)
    (hshuffle : e.length ≤ 3 → List.Perm (shuffle e) e) :
    out.savedWinners.length = min e.length 3
    ∧ out.savedWinners.map WinnerData.prize_place
      = (List.range (min e.length 3)).map (· + 1)
    ∧ out.savedWinners.map WinnerData.prize_amount
      = (prizes.map Prod.snd).take (min e.length 3)
    ∧ (∀ wr ∈ out.savedWinners, wr.user_id ∈ e.map Participant.user_id)
    ∧ (out.savedWinners.map WinnerData.user_id).Nodup
    ∧ (e.length ≤ 3 →
        List.Perm (out.savedWinners.map WinnerData.user_id)
          (e.map Participant.user_id)) := by
  have hwsub : List.Subperm (if 3 < e.length then sample3 e else shuffle e) e := by
    by_cases h3 : 3 < e.length
    · rw [if_pos h3]; exact (hsample h3).1
    · rw [if_neg h3]; exact (hshuffle (by omega)).subperm
  have hwlen : (if 3 < e.length then sample3 e else shuffle e).length
      = min e.length 3 := by
    by_cases h3 : 3 < e.length
    · rw [if_pos h3, (hsample h3).2]; omega
    · rw [if_neg h3, (hshuffle (by omega)).length_eq]; omega
  obtain ⟨hmk, hlen, hplaces, hamounts, hids⟩ :=
    mkWinnersData_props (if 3 < e.length then sample3 e else shuffle e)
      (min e.length 3) (min_le_right _ _) (by omega)
  have htake : (if 3 < e.length then sample3 e else shuffle e).take (min e.length 3)
      = (if 3 < e.length then sample3 e else shuffle e) := by
    conv_lhs => rw [← hwlen]
    exact List.take_length _
  rw [htake] at hids
  have hp : participants ≠ [] := by
    intro h0
    apply hne
    rw [he, h0]
    rfl
  have hne2 : eligibleFilter participants subCheck ≠ [] := by rw [← he]; exact hne
  have hrun := conduct_raffle_run participants subCheck sample3 shuffle registered
    hp hne2 _ (by rw [← he]; exact hmk)
  rw [hout, hrun]
  have hesub : List.Sublist e participants := by
    rw [he]
    exact eligibleFilter_sublist participants subCheck
  have hEnodup : (e.map Participant.user_id).Nodup :=
    hnodup.sublist (hesub.map Participant.user_id)
  refine ⟨hlen, hplaces, hamounts, ?_, ?_, ?_⟩
  · intro wr hwr
    have hmem : wr.user_id ∈ (((prizes.zip
        (if 3 < e.length then sample3 e else shuffle e)).take
          (min e.length 3)).map winnerOfPair).map WinnerData.user_id :=
      List.mem_map_of_mem _ hwr
    rw [hids] at hmem
    exact (subperm_map Participant.user_id hwsub).subset hmem
  · rw [hids]
    exact subperm_nodup (subperm_map Participant.user_id hwsub) hEnodup
  · intro hle
    have hperm : List.Perm (if 3 < e.length then sample3 e else shuffle e) e := by
      rw [if_neg (by omega)]
      exact hshuffle hle
    rw [hids]
    exact hperm.map Participant.user_id

/-- C3 witness: two eligible participants, with `random.sample` modelled by
`take 3` and `random.shuffle` by `reverse`: both winners are drawn, with
ranks 1 and 2, amounts "10 000 ₽" and "5 000 ₽", distinct ids from the
eligible pair, and (since n ≤ 3) the winners are a permutation of the whole
eligible set. -/
theorem raffle_winner_selection_witness :
    (conduct_raffle [⟨1, some "a", none⟩, ⟨2, some "b", none⟩] (fun _ => true)
        (fun l => l.take 3) (fun l => l.reverse) [1, 2]).savedWinners.length
      = min (eligibleFilter [⟨1, some "a", none⟩, ⟨2, some "b", none⟩]
          (fun _ => true)).length 3
    ∧ ((conduct_raffle [⟨1, some "a", none⟩, ⟨2, some "b", none⟩] (fun _ => true)
        (fun l => l.take 3) (fun l => l.reverse) [1, 2]).savedWinners.map
          WinnerData.prize_place)
      = (List.range (min (eligibleFilter [⟨1, some "a", none⟩, ⟨2, some "b", none⟩]
          (fun _ => true)).length 3)).map (· + 1)
    ∧ ((conduct_raffle [⟨1, some "a", none⟩, ⟨2, some "b", none⟩] (fun _ => true)
        (fun l => l.take 3) (fun l => l.reverse) [1, 2]).savedWinners.map
          WinnerData.prize_amount)
      = (prizes.map Prod.snd).take (min (eligibleFilter
          [⟨1, some "a", none⟩, ⟨2, some "b", none⟩] (fun _ => true)).length 3)
    ∧ (∀ wr ∈ (conduct_raffle [⟨1, some "a", none⟩, ⟨2, some "b", none⟩]
          (fun _ => true) (fun l => l.take 3) (fun l => l.reverse)
          [1, 2]).savedWinners,
        wr.user_id ∈ (eligibleFilter [⟨1, some "a", none⟩, ⟨2, some "b", none⟩]
          (fun _ => true)).map Participant.user_id)
    ∧ ((conduct_raffle [⟨1, some "a", none⟩, ⟨2, some "b", none⟩] (fun _ => true)
        (fun l => l.take 3) (fun l => l.reverse) [1, 2]).savedWinners.map
          WinnerData.user_id).Nodup
    ∧ ((eligibleFilter [⟨1, some "a", none⟩, ⟨2, some "b", none⟩]
          (fun _ => true)).length ≤ 3 →
        List.Perm ((conduct_raffle [⟨1, some "a", none⟩, ⟨2, some "b", none⟩]
            (fun _ => true) (fun l => l.take 3) (fun l => l.reverse)
            [1, 2]).savedWinners.map WinnerData.user_id)
          ((eligibleFilter [⟨1, some "a", none⟩, ⟨2, some "b", none⟩]
            (fun _ => true)).map Participant.user_id)) :=
  raffle_winner_selection [⟨1, some "a", none⟩, ⟨2, some "b", none⟩] (fun _ => true)
    (fun l => l.take 3) (fun l => l.reverse) [1, 2]
    (eligibleFilter [⟨1, some "a", none⟩, ⟨2, some "b", none⟩] (fun _ => true))
    (conduct_raffle [⟨1, some "a", none⟩, ⟨2, some "b", none⟩] (fun _ => true)
      (fun l => l.take 3) (fun l => l.reverse) [1, 2])
    rfl rfl (by decide) (by decide)
    (fun h3 => absurd h3 (by decide))
    (fun _ => List.reverse_perm _)

/-- A row of the `users` table (src/database.py lines 16-24): primary-key
user id, optional username and first name, the `registered_at` creation
timestamp, and the `subscribed` integer flag (default 0). -/
structure UserRow where
  user_id : Int
  username : Option String
  first_name : Option String
  registered_at : Nat
  subscribed : Nat
deriving DecidableEq

/-- `get_all_registered_users()` from src/database.py lines 102-115:
`SELECT user_id FROM users WHERE subscribed = 1`, in row order; any store
error (modelled by `db = none`) is caught and yields the empty list. -/
def get_all_registered_users (db : Option (List UserRow)) : List Int :=
  match db with
  | none => []
  | some rows => (rows.filter (fun r => r.subscribed == 1)).map UserRow.user_id

/-- `add_user(user_id, username, first_name)` from src/database.py lines
54-77: if a row with this id exists, `UPDATE users SET username = ?,
first_name = ? WHERE user_id = ?`; otherwise `INSERT` a fresh row, whose
`registered_at` defaults to the current timestamp `nowTs` and whose
`subscribed` flag defaults to 0. -/
def add_user (db : List UserRow) (uid : Int) (username first_name : Option String)
    (nowTs : Nat) : List UserRow :=
  if db.any (fun r => r.user_id == uid) then
    db.map (fun r =>
      if r.user_id == uid then
        { r with username := username, first_name := first_name }
      else r)
  else
    db ++ [⟨uid, username, first_name, nowTs, 0⟩]

/-- C9: every broadcast operation (scheduled reminders and marathon-end
message, raffle announcement, admin broadcast) fans out to exactly
`get_all_registered_users`, which contains a user id iff some row carries it
with `subscribed = 1`; under the primary-key invariant a row with
`subscribed ≠ 1` never has its id in the recipient set, and a store read
error yields the empty recipient set, hence no sends. -/
theorem broadcast_recipients_are_subscribed (db : Option (List UserRow))
    (broadcasts : List Broadcast) (marathonEndDate : TimeKey) (now : TimeKey) :
    (∀ msg rs, (msg, rs) ∈ check_and_send_reminders broadcasts marathonEndDate now
        (get_all_registered_users db) → rs = get_all_registered_users db)
    ∧ (∀ participants subCheck sample3 shuffle,
        (conduct_raffle participants subCheck sample3 shuffle
          (get_all_registered_users db)).announceRecipients = []
        ∨ (conduct_raffle participants subCheck sample3 shuffle
            (get_all_registered_users db)).announceRecipients
          = get_all_registered_users db)
    ∧ (∀ ok, sendsOf (confirm_send_fanout ok (get_all_registered_users db)).1
        = get_all_registered_users db)
    ∧ (∀ uid, uid ∈ get_all_registered_users db ↔
        ∃ rows, db = some rows ∧ ∃ r ∈ rows, r.user_id = uid ∧ r.subscribed = 1)
    ∧ (∀ rows, db = some rows → (rows.map UserRow.user_id).Nodup →
        ∀ r ∈ rows, r.subscribed ≠ 1 → r.user_id ∉ get_all_registered_users db)
    ∧ (db = none → get_all_registered_users db = []) := by
  refine ⟨?_, ?_, ?_, ?_, ?_, ?_⟩
  · intro msg rs hmem
    rw [check_and_send_reminders] at hmem
    by_cases hu : get_all_registered_users db = []
    · rw [if_pos hu] at hmem
      exact absurd hmem (List.not_mem_nil _)
    · rw [if_neg hu] at hmem
      rcases List.mem_append.mp hmem with hmem2 | hmem2
      · obtain ⟨b, _, hb⟩ := List.mem_flatMap.mp hmem2
        rcases List.mem_append.mp hb with hb2 | hb2
        · rcases List.mem_append.mp hb2 with hb3 | hb3
          · split at hb3
            · exact congrArg Prod.snd (List.mem_singleton.mp hb3)
            · exact absurd hb3 (List.not_mem_nil _)
          · split at hb3
            · exact congrArg Prod.snd (List.mem_singleton.mp hb3)
            · exact absurd hb3 (List.not_mem_nil _)
        · split at hb2
          · exact congrArg Prod.snd (List.mem_singleton.mp hb2)
          · exact absurd hb2 (List.not_mem_nil _)
      · split at hmem2
        · exact congrArg Prod.snd (List.mem_singleton.mp hmem2)
        · exact absurd hmem2 (List.not_mem_nil _)
  · intro participants subCheck sample3 shuffle
    rw [conduct_raffle]
    by_cases hp : participants = []
    · rw [if_pos hp]; exact Or.inl rfl
    · rw [if_neg hp]
      by_cases h0 : (eligibleFilter participants subCheck).length = 0
      · rw [if_pos h0]; exact Or.inl rfl
      · rw [if_neg h0]
        rcases hmk : mkWinnersData
            (if 3 < (eligibleFilter participants subCheck).length
              then sample3 (eligibleFilter participants subCheck)
              else shuffle (eligibleFilter participants subCheck))
            (min (eligibleFilter participants subCheck).length 3) with _ | wd
        · exact Or.inl rfl
        · exact Or.inr rfl
  · intro ok
    exact (fanout_props (get_all_registered_users db) ok).2.2.2.1
  · intro uid
    cases db with
    | none =>
      simp [get_all_registered_users]
    | some rows =>
      simp only [get_all_registered_users, List.mem_map, List.mem_filter]
      constructor
      · rintro ⟨r, ⟨hr, hs⟩, rfl⟩
        exact ⟨rows, rfl, r, hr, rfl, by simpa using hs⟩
      · rintro ⟨rows2, heq, r, hr, hid, hs⟩
        cases heq
        exact ⟨r, ⟨hr, by simpa using hs⟩, hid⟩
  · rintro rows rfl hnd r hr hs hmem
    simp only [get_all_registered_users, List.mem_map, List.mem_filter] at hmem
    obtain ⟨r2, ⟨hr2, hs2⟩, hid2⟩ := hmem
    have : r2 = r := by
      have hinj := List.inj_on_of_nodup_map hnd
      exact hinj hr2 hr hid2
    subst this
    exact hs (by simpa using hs2)
  · rintro rfl
    rfl

/-- C9 witness: a store with one subscribed and one never-subscribed user
yields exactly the subscribed id as recipient set; the never-subscribed id
is absent, and a store error yields no recipients. -/
theorem broadcast_recipients_are_subscribed_witness :
    (7 : Int) ∈ get_all_registered_users
      (some [⟨7, some "a", none, 0, 1⟩, ⟨8, some "b", none, 0, 0⟩])
    ∧ (8 : Int) ∉ get_all_registered_users
      (some [⟨7, some "a", none, 0, 1⟩, ⟨8, some "b", none, 0, 0⟩])
    ∧ get_all_registered_users (none : Option (List UserRow)) = [] := by
  have h1 := broadcast_recipients_are_subscribed
    (some [⟨7, some "a", none, 0, 1⟩, ⟨8, some "b", none, 0, 0⟩]) [] (0, 0, 0, 0, 0)
      (0, 0, 0, 0, 0)
  have h2 := broadcast_recipients_are_subscribed (none : Option (List UserRow)) []
    (0, 0, 0, 0, 0) (0, 0, 0, 0, 0)
  refine ⟨?_, ?_, h2.2.2.2.2.2 rfl⟩
  · exact (h1.2.2.2.1 7).mpr
      ⟨_, rfl, ⟨7, some "a", none, 0, 1⟩, by decide, rfl, rfl⟩
  · exact h1.2.2.2.2.1 _ rfl (by decide) ⟨8, some "b", none, 0, 0⟩
      (by decide) (by decide)

/-- C10: calling `add_user` with an id already in the store updates only
that user's `username` and `first_name`: the row count is unchanged, every
row keeps its id, `subscribed` flag and `registered_at` timestamp (so a
repeated /start never unregisters a subscribed user), rows of other users
are untouched, and the matching row carries the new name fields. -/
theorem add_user_preserves_subscription (db : List UserRow) (uid : Int)
    (username first_name : Option String) (nowTs : Nat)
    (h : db.any (fun r => r.user_id == uid) = true) :
    (add_user db uid username first_name nowTs).length = db.length
    ∧ (add_user db uid username first_name nowTs).map
        (fun r => (r.user_id, r.subscribed, r.registered_at))
      = db.map (fun r => (r.user_id, r.subscribed, r.registered_at))
    ∧ (∀ r ∈ db, r.user_id ≠ uid → r ∈ add_user db uid username first_name nowTs)
    ∧ (∀ r ∈ add_user db uid username first_name nowTs, r.user_id = uid →
        r.username = username ∧ r.first_name = first_name) := by
  rw [add_user, if_pos h]
  refine ⟨List.length_map _ _, ?_, ?_, ?_⟩
  · rw [List.map_map]
    apply List.map_congr_left
    intro r _
    by_cases hr : r.user_id = uid
    · simp [hr]
    · simp [hr]
  · intro r hr hne
    refine List.mem_map.mpr ⟨r, hr, ?_⟩
    simp [hne]
  · intro r hr hid
    obtain ⟨r0, _, hr0⟩ := List.mem_map.mp hr
    by_cases h0 : r0.user_id = uid
    · rw [← hr0]
      simp [h0]
    · exfalso
      rw [← hr0] at hid
      simp [h0] at hid

/-- C10 witness: repeating /start for an already-subscribed user 5 keeps the
flag and timestamp and rewrites only the name fields; user 6 is untouched. -/
theorem add_user_preserves_subscription_witness :
    (add_user [⟨5, some "old", some "o", 11, 1⟩, ⟨6, none, none, 12, 0⟩]
        5 (some "new") (some "n") 99).length
      = ([⟨5, some "old", some "o", 11, 1⟩, ⟨6, none, none, 12, 0⟩] :
          List UserRow).length
    ∧ (add_user [⟨5, some "old", some "o", 11, 1⟩, ⟨6, none, none, 12, 0⟩]
        5 (some "new") (some "n") 99).map
          (fun r => (r.user_id, r.subscribed, r.registered_at))
      = ([⟨5, some "old", some "o", 11, 1⟩, ⟨6, none, none, 12, 0⟩] :
          List UserRow).map (fun r => (r.user_id, r.subscribed, r.registered_at))
    ∧ (∀ r ∈ ([⟨5, some "old", some "o", 11, 1⟩, ⟨6, none, none, 12, 0⟩] :
          List UserRow), r.user_id ≠ 5 →
        r ∈ add_user [⟨5, some "old", some "o", 11, 1⟩, ⟨6, none, none, 12, 0⟩]
          5 (some "new") (some "n") 99)
    ∧ (∀ r ∈ add_user [⟨5, some "old", some "o", 11, 1⟩, ⟨6, none, none, 12, 0⟩]
          5 (some "new") (some "n") 99, r.user_id = 5 →
        r.username = some "new" ∧ r.first_name = some "n") :=
  add_user_preserves_subscription
    [⟨5, some "old", some "o", 11, 1⟩, ⟨6, none, none, 12, 0⟩]
    5 (some "new") (some "n") 99 (by decide)

end Marafon
